import Mathlib

/-!
Verification of the AutoThink fast semantic-matching and suggestion pipeline
(`backend/app/openai_fast.py`, `backend/app/utils/id_generation.py`,
`backend/app/models_dynamic.py`).

The Python code is shallowly embedded: pure helpers become Lean functions,
the network calls (chat completion, embedding service, `json.loads`) become
explicit function parameters, floats become rationals with the square root
of `np.linalg.norm` kept as an abstract function parameter, and fallible
code returns `Except`.  Functions that invoke the generative model also
return the number of such invocations, so call-count claims are statable.
-/

namespace AutoThink

/-! ## Python string primitives

Python string semantics used by the embedded code: `str.strip` (whitespace
is space, tab, newline, carriage return, vertical tab, form feed),
slicing by code points, `str.lower`, `str.startswith`/`str.endswith`,
truthiness (a string is falsy exactly when empty). -/

/-- The characters `str.strip()` removes. -/
def pyWS (c : Char) : Bool :=
  (c == ' ') || (c == '\t') || (c == '\n') || (c == '\r') || (c == '\x0b') || (c == '\x0c')

/-- Python `s.strip()`. -/
def pyStrip (s : String) : String :=
  ⟨((s.data.dropWhile pyWS).reverse.dropWhile pyWS).reverse⟩

/-- Python `s[:n]` (slicing by code points). -/
def pyTake (n : Nat) (s : String) : String := ⟨s.data.take n⟩

/-- Python `s[n:]`. -/
def pyDrop (n : Nat) (s : String) : String := ⟨s.data.drop n⟩

/-- Python `s[:-n]` for `n ≤ len(s)` (used for stripping a trailing fence). -/
def pyDropRight (n : Nat) (s : String) : String := ⟨s.data.take (s.data.length - n)⟩

/-- Python `s[1:-1]` (note `"x"[1:-1] = ""` also for strings of length < 2). -/
def pySliceInner (s : String) : String := ⟨(s.data.drop 1).take (s.data.length - 2)⟩

/-- Python `s.lower()` (the embedded strings are ASCII). -/
def pyLower (s : String) : String := ⟨s.data.map Char.toLower⟩

/-- Python `s.startswith(p)`. -/
def pyStartsWith (p s : String) : Bool := s.data.take p.data.length == p.data

/-- Python `s.endswith(p)`. -/
def pyEndsWith (p s : String) : Bool := s.data.reverse.take p.data.length == p.data.reverse

/-! ## SHA-256 (`hashlib.sha256`), over natural numbers

A faithful executable SHA-256: message bytes are UTF-8, words are `Nat`
reduced mod `2 ^ 32` at every operation.  Validated below against the two
canonical FIPS 180-2 test vectors. -/

/-- UTF-8 encoding of one code point. -/
def utf8Bytes (n : Nat) : List Nat :=
  if n < 128 then [n]
  else if n < 2048 then [192 + n / 64, 128 + n % 64]
  else if n < 65536 then [224 + n / 4096, 128 + (n / 64) % 64, 128 + n % 64]
  else [240 + n / 262144, 128 + (n / 4096) % 64, 128 + (n / 64) % 64, 128 + n % 64]

/-- UTF-8 bytes of a string (Python `s.encode('utf-8')`). -/
def strBytes (s : String) : List Nat := s.data.flatMap (fun c => utf8Bytes c.toNat)

def rotr32 (n x : Nat) : Nat := ((x >>> n) ||| (x <<< (32 - n))) % 4294967296

def add32 (a b : Nat) : Nat := (a + b) % 4294967296

def bsig0 (x : Nat) : Nat := (rotr32 2 x) ^^^ (rotr32 13 x) ^^^ (rotr32 22 x)

def bsig1 (x : Nat) : Nat := (rotr32 6 x) ^^^ (rotr32 11 x) ^^^ (rotr32 25 x)

def ssig0 (x : Nat) : Nat := (rotr32 7 x) ^^^ (rotr32 18 x) ^^^ (x >>> 3)

def ssig1 (x : Nat) : Nat := (rotr32 17 x) ^^^ (rotr32 19 x) ^^^ (x >>> 10)

def chFn (x y z : Nat) : Nat := (x &&& y) ^^^ ((x ^^^ 4294967295) &&& z)

def majFn (x y z : Nat) : Nat := (x &&& y) ^^^ (x &&& z) ^^^ (y &&& z)

/-- The 64 SHA-256 round constants, in decimal. -/
def shaK : List Nat :=
  [1116352408, 1899447441, 3049323471, 3921009573, 961987163,
   1508970993, 2453635748, 2870763221, 3624381080, 310598401,
   607225278, 1426881987, 1925078388, 2162078206, 2614888103,
   3248222580, 3835390401, 4022224774, 264347078, 604807628,
   770255983, 1249150122, 1555081692, 1996064986, 2554220882,
   2821834349, 2952996808, 3210313671, 3336571891, 3584528711,
   113926993, 338241895, 666307205, 773529912, 1294757372,
   1396182291, 1695183700, 1986661051, 2177026350, 2456956037,
   2730485921, 2820302411, 3259730800, 3345764771, 3516065817,
   3600352804, 4094571909, 275423344, 430227734, 506948616,
   659060556, 883997877, 958139571, 1322822218, 1537002063,
   1747873779, 1955562222, 2024104815, 2227730452, 2361852424,
   2428436474, 2756734187, 3204031479, 3329325298]

/-- The eight SHA-256 initial hash values, in decimal. -/
def shaH0 : List Nat :=
  [1779033703, 3144134277, 1013904242, 2773480762,
   1359893119, 2600822924, 528734635, 1541459225]

/-- Big-endian 8-byte encoding of the bit length. -/
def be64 (n : Nat) : List Nat :=
  [(n >>> 56) % 256, (n >>> 48) % 256, (n >>> 40) % 256, (n >>> 32) % 256,
   (n >>> 24) % 256, (n >>> 16) % 256, (n >>> 8) % 256, n % 256]

/-- SHA-256 padding: append 0x80, zero bytes to 56 mod 64, then the bit length. -/
def shaPad (msg : List Nat) : List Nat :=
  let l := msg.length
  msg ++ [128] ++ List.replicate ((119 - l % 64) % 64) 0 ++ be64 (8 * l)

/-- Split into 64-byte blocks (fueled, so the kernel can evaluate it). -/
def blocksAux : Nat → List Nat → List (List Nat)
  | 0, _ => []
  | _, [] => []
  | fuel + 1, b :: rest => ((b :: rest).take 64) :: blocksAux fuel ((b :: rest).drop 64)

def blocks64 (l : List Nat) : List (List Nat) := blocksAux l.length l

/-- Big-endian 32-bit words from bytes. -/
def bytesToWords : List Nat → List Nat
  | b0 :: b1 :: b2 :: b3 :: rest => (((b0 * 256 + b1) * 256 + b2) * 256 + b3) :: bytesToWords rest
  | _ => []

/-- Message-schedule extension; `wrev` holds the words most recent first. -/
def schedAux : Nat → List Nat → List Nat
  | 0, wrev => wrev
  | n + 1, wrev =>
      let g := fun i => wrev.getD i 0
      schedAux n ((add32 (add32 (ssig1 (g 1)) (g 6)) (add32 (ssig0 (g 14)) (g 15))) :: wrev)

/-- The 64 schedule words W₀..W₆₃ of one block. -/
def schedule (ws : List Nat) : List Nat := (schedAux 48 ws.reverse).reverse

/-- One round of the compression function; the state is `[a,b,c,d,e,f,g,h]`. -/
def shaStep (st : List Nat) (wk : Nat × Nat) : List Nat :=
  match st with
  | [a, b, c, d, e, f, g, h] =>
      let t1 := (h + bsig1 e + chFn e f g + wk.2 + wk.1) % 4294967296
      let t2 := (bsig0 a + majFn a b c) % 4294967296
      [(t1 + t2) % 4294967296, a, b, c, (d + t1) % 4294967296, e, f, g]
  | st => st

/-- Process one 64-byte block. -/
def shaBlock (h : List Nat) (block : List Nat) : List Nat :=
  let w := schedule (bytesToWords block)
  let st := (w.zip shaK).foldl shaStep h
  List.zipWith add32 h st

def hexDigit (n : Nat) : Char := if n < 10 then Char.ofNat (48 + n) else Char.ofNat (87 + n)

/-- Lowercase hex of one 32-bit word, 8 digits. -/
def wordHex (x : Nat) : List Char :=
  [hexDigit ((x >>> 28) % 16), hexDigit ((x >>> 24) % 16), hexDigit ((x >>> 20) % 16),
   hexDigit ((x >>> 16) % 16), hexDigit ((x >>> 12) % 16), hexDigit ((x >>> 8) % 16),
   hexDigit ((x >>> 4) % 16), hexDigit (x % 16)]

/-- `hashlib.sha256(s.encode('utf-8')).hexdigest()`. -/
def sha256hex (s : String) : String :=
  let digest := (blocks64 (shaPad (strBytes s))).foldl shaBlock shaH0
  ⟨digest.flatMap wordHex⟩

example : sha256hex "" = "e3b0c44298fc1c149afbf4c8996fb92427ae41e4649b934ca495991b7852b855" := by
  decide

example : sha256hex "abc" = "ba7816bf8f01cfea414140de5dae2223b00361a396177a9cb410ff61f20015ad" := by
  decide

/-! ## `generate_stable_chunk_id` (`backend/app/utils/id_generation.py`) -/

/-- `generate_stable_chunk_id(source_file, section, body_preview)`: the
Python normalization `section or ""` and
`body_preview[:50] if body_preview else ""` (truthiness on strings), the
composite `f"{source_file}||{section}||{body_preview}"`, SHA-256, first 16
hex characters. -/
def generate_stable_chunk_id (source_file sectionLabel body_preview : String) : String :=
  let sectionLabel := if sectionLabel == "" then "" else sectionLabel
  let body_preview := if body_preview == "" then "" else pyTake 50 body_preview
  let composite := source_file ++ "||" ++ sectionLabel ++ "||" ++ body_preview
  pyTake 16 (sha256hex composite)

/-- `section or ""` is the identity on strings. -/
lemma pyOrEmpty (s : String) : (if s == "" then "" else s) = s := by
  by_cases h : s = "" <;> simp [h]

/-- `body_preview[:50] if body_preview else ""` is just `body_preview[:50]`. -/
lemma pyTruthyTake (b : String) : (if b == "" then "" else pyTake 50 b) = pyTake 50 b := by
  by_cases h : b = ""
  · subst h; rfl
  · simp [h]

end AutoThink

/-- Claim C3: for all strings `source_file`, `section`, `body_preview`,
`generate_stable_chunk_id` returns the first 16 hex characters of the
SHA-256 hash of `source_file ++ "||" ++ section ++ "||" ++ body_preview[:50]`;
it is deterministic, and two bodies agreeing on their first 50 characters
(with the same file and section) get equal ids. -/
theorem AutoThink.generate_stable_chunk_id_spec (f s b1 b2 : String) :
    generate_stable_chunk_id f s b1
      = pyTake 16 (sha256hex (f ++ "||" ++ s ++ "||" ++ pyTake 50 b1)) ∧
    generate_stable_chunk_id f s b1 = generate_stable_chunk_id f s b1 ∧
    (pyTake 50 b1 = pyTake 50 b2 →
      generate_stable_chunk_id f s b1 = generate_stable_chunk_id f s b2) := by
  have hform : ∀ b : String, generate_stable_chunk_id f s b
      = pyTake 16 (sha256hex (f ++ "||" ++ s ++ "||" ++ pyTake 50 b)) := by
    intro b
    unfold generate_stable_chunk_id
    rw [pyOrEmpty, pyTruthyTake]
  refine ⟨hform b1, rfl, fun h => ?_⟩
  rw [hform b1, hform b2, h]

namespace AutoThink

/-! ## Data model

`SemanticChunk`, `DiscoveredTopic`, `DocumentIndex` from
`backend/app/models_dynamic.py` (the `uploaded_at` timestamp is real time
and carries no information the claims touch, so it is omitted).  A chunk's
open `metadata` mapping is split into the reserved `embedding` key and the
remaining string-valued entries.  `DChunk` models the plain chunk
dictionaries the suggestion routes receive from the extension, where any
key, including `metadata`, may be absent. -/

structure ChunkMeta where
  embedding : Option (List ℚ) := none
  extra : List (String × String) := []
deriving DecidableEq

structure SemanticChunk where
  id : String
  source_file : String
  body : String
  semantic_tags : List String
  related_topics : List String := []
  metadata : ChunkMeta := {}
deriving DecidableEq

structure DiscoveredTopic where
  topic : String
  subtopics : List String := []
  chunk_ids : List String := []
  confidence : ℚ
deriving DecidableEq

structure DocumentIndex where
  document_id : String
  source_file : String
  discovered_topics : List DiscoveredTopic := []
  all_tags : List String := []
  chunk_count : Nat
  chunks : List SemanticChunk := []
deriving DecidableEq

/-- A chunk as sent by the extension: a dictionary whose keys may be
missing.  `none` models an absent key (Python `.get` defaults then apply). -/
structure DChunk where
  id : String := ""
  body : String := ""
  semantic_tags : List String := []
  metadata : Option ChunkMeta := none
deriving DecidableEq

/-- The `field_context` dictionary: `none` models an absent or `None` value. -/
structure FieldContext where
  label_text : Option String := none
  placeholder : Option String := none
  name_attr : Option String := none
  max_length : Option Nat := none
deriving DecidableEq

/-- Python truthiness of `field_context.get('max_length')`: `None` and `0`
are falsy. -/
def optNatTruthy : Option Nat → Bool
  | some k => k != 0
  | none => false

/-! ## `generate_embeddings_batch`

The embedding service is a parameter `svc`; the result pairs the returned
vectors with the number of requests issued. -/

def generate_embeddings_batch (svc : List String → List (List ℚ))
    (texts : List String) : List (List ℚ) × Nat :=
  if texts.isEmpty then ([], 0) else (svc texts, 1)

/-! ## `fast_generate_suggestion`

The chat-completion call is a parameter `llm` from the prompt to the reply
content (`none` models a `None` message content).  The result pairs the
returned string with the number of chat-completion invocations. -/

/-- The length instruction of `fast_generate_suggestion` (lines 309-314):
`if max_length and max_length <= 300 / elif max_length / else`, with
`int(max_length * 0.9)` rendered as `9 * m / 10` (for `1 ≤ m ≤ 300` the
float truncation agrees with this rational floor: the double closest to 0.9
exceeds 0.9, so the rounded product never falls below an attained integer,
and away from integers the slack exceeds the rounding error). -/
def length_instruction (max_length : Option Nat) : String :=
  if optNatTruthy max_length && decide (max_length.getD 0 ≤ 300) then
    "This field allows up to " ++ toString (max_length.getD 0) ++
      " characters. Use AS MUCH of this space as possible! Aim for " ++
      toString (9 * max_length.getD 0 / 10) ++ "-" ++ toString (max_length.getD 0) ++ " characters."
  else if optNatTruthy max_length then
    "Maximum " ++ toString (max_length.getD 0) ++ " characters."
  else
    "No length limit - provide comprehensive, detailed information."

/-- The numbered `[Source i]` context lines built from the top 3 chunks. -/
def chunksContext (matched_chunks : List DChunk) : List String :=
  (matched_chunks.take 3).enum.map
    (fun p => "[Source " ++ toString (p.1 + 1) ++ "] " ++ p.2.body)

/-- The suggestion prompt (lines 317-337), verbatim. -/
def suggestionPrompt (field_context : FieldContext) (matched_chunks : List DChunk) : String :=
  let field_label := field_context.label_text.getD "Unknown field"
  let field_placeholder := field_context.placeholder.getD ""
  "You are filling out a form field. Extract relevant information from the provided context.\n\nFIELD TO FILL:\n- Label: "
    ++ field_label ++ "\n"
    ++ (if field_placeholder == "" then "" else "- Hint: " ++ field_placeholder)
    ++ "\n- " ++ length_instruction field_context.max_length
    ++ "\n\nRELEVANT INFORMATION (already matched to this field):\n"
    ++ String.intercalate "\n" (chunksContext matched_chunks)
    ++ "\n\nCRITICAL RULES:\n1. Extract information from the context above that answers what the field is asking for\n2. Write a complete, well-formatted response using the information provided\n3. NEVER return empty string or just \"N/A\" if you have any relevant information\n4. For long fields: Write detailed, comprehensive responses\n5. For short fields (name, email, phone): Extract just the specific value\n6. If the field asks \"How does X work?\" or \"What is X?\" → Provide a full explanation from the context\n7. Use most/all of the available character space\n8. Return ONLY the text to put in the field (no labels, no \"Answer:\", no explanations)\n\nNow extract and format the information for this field:"

/-- Python `suggestion[1:-1]` applied when the reply is wrapped in double
quotes (lines 373-374). -/
def stripWrappingQuotes (s : String) : String :=
  if pyStartsWith "\"" s && pyEndsWith "\"" s then pySliceInner s else s

/-- The fixed fallback sentence of the final check (line 379). -/
def fallbackSentence : String :=
  "No relevant information found in your documents for this field."

def fast_generate_suggestion (llm : String → Option String)
    (field_context : FieldContext) (matched_chunks : List DChunk) : String × Nat :=
  if matched_chunks.isEmpty then ("N/A", 0)
  else
    match llm (suggestionPrompt field_context matched_chunks) with
    | none => ("N/A", 1)
    | some raw =>
      if pyStrip raw == "" then ("N/A", 1)
      else if stripWrappingQuotes (pyStrip raw) == ""
          || pyLower (stripWrappingQuotes (pyStrip raw)) == "n/a" then
        (fallbackSentence, 1)
      else (stripWrappingQuotes (pyStrip raw), 1)

end AutoThink

/-- Claim C6: `fast_generate_suggestion` on an empty matched-chunk list
returns exactly `"N/A"` with zero chat-completion invocations. -/
theorem AutoThink.fast_generate_suggestion_empty (llm : String → Option String)
    (field_context : AutoThink.FieldContext) :
    fast_generate_suggestion llm field_context [] = ("N/A", 0) := rfl

/-- Claim C8, counterexample: a present max length of `0` is at most 300, yet
the instruction is the no-ceiling sentence, not the 90%-100% budget sentence
(Python `if max_length and ...` treats the integer `0` as absent). -/
theorem AutoThink.length_instruction_zero_max :
    AutoThink.length_instruction (some 0)
        = "No length limit - provide comprehensive, detailed information." ∧
    AutoThink.length_instruction (some 0)
        ≠ "This field allows up to 0 characters. Use AS MUCH of this space as possible! Aim for 0-0 characters." := by
  constructor <;> decide

/-- Claim C8 as amended: the length instruction has three cases keyed on a
present **and nonzero** max length: nonzero and at most 300 gives the
90%-100% budget sentence (with `int(0.9 * m)` equal to `9 * m / 10`),
nonzero and greater than 300 gives the hard ceiling, and an absent or zero
max length gives the comprehensive no-ceiling sentence. -/
theorem AutoThink.length_instruction_cases (ml : Option Nat) :
    ((ml = none ∨ ml = some 0) →
      AutoThink.length_instruction ml
        = "No length limit - provide comprehensive, detailed information.") ∧
    (∀ m, ml = some m → 1 ≤ m → m ≤ 300 →
      AutoThink.length_instruction ml
        = "This field allows up to " ++ toString m ++
          " characters. Use AS MUCH of this space as possible! Aim for " ++
          toString (9 * m / 10) ++ "-" ++ toString m ++ " characters.") ∧
    (∀ m, ml = some m → 300 < m →
      AutoThink.length_instruction ml = "Maximum " ++ toString m ++ " characters.") := by
  refine ⟨?_, ?_, ?_⟩
  · rintro (rfl | rfl) <;> rfl
  · rintro m rfl h1 h300
    have hm : m ≠ 0 := by omega
    simp [AutoThink.length_instruction, AutoThink.optNatTruthy, hm, h300]
  · rintro m rfl h300
    have hm : m ≠ 0 := by omega
    have hgt : ¬ (m ≤ 300) := by omega
    simp [AutoThink.length_instruction, AutoThink.optNatTruthy, hm, hgt]

/-- Claim C1, counterexample: with a non-empty matched-chunk list and a
model reply that is empty after stripping, the function returns the literal
`"N/A"`, not the fixed fallback sentence. -/
theorem AutoThink.fast_generate_suggestion_empty_reply :
    (AutoThink.fast_generate_suggestion (fun _ => some "") {} [{}]).1 = "N/A" ∧
    (AutoThink.fast_generate_suggestion (fun _ => some "") {} [{}]).1
      ≠ AutoThink.fallbackSentence := by
  constructor <;> decide

/-- Claim C1 as amended: for a non-empty matched-chunk list the result is
never the empty string; a missing reply or a reply that is empty after
stripping whitespace yields the literal `"N/A"`; a reply that is non-empty
after stripping but becomes empty, or equals `"n/a"` case-insensitively,
after removing a single wrapping pair of double quotes yields the fixed
fallback sentence; any other reply is returned stripped and unquoted. -/
theorem AutoThink.fast_generate_suggestion_postprocess (llm : String → Option String)
    (fc : AutoThink.FieldContext) (matched_chunks : List AutoThink.DChunk)
    (h : matched_chunks ≠ []) :
    (AutoThink.fast_generate_suggestion llm fc matched_chunks).1 ≠ "" ∧
    (llm (AutoThink.suggestionPrompt fc matched_chunks) = none →
      (AutoThink.fast_generate_suggestion llm fc matched_chunks).1 = "N/A") ∧
    (∀ raw, llm (AutoThink.suggestionPrompt fc matched_chunks) = some raw →
      AutoThink.pyStrip raw = "" →
      (AutoThink.fast_generate_suggestion llm fc matched_chunks).1 = "N/A") ∧
    (∀ raw, llm (AutoThink.suggestionPrompt fc matched_chunks) = some raw →
      AutoThink.pyStrip raw ≠ "" →
      (AutoThink.stripWrappingQuotes (AutoThink.pyStrip raw) = "" ∨
        AutoThink.pyLower (AutoThink.stripWrappingQuotes (AutoThink.pyStrip raw)) = "n/a") →
      (AutoThink.fast_generate_suggestion llm fc matched_chunks).1
        = AutoThink.fallbackSentence) ∧
    (∀ raw, llm (AutoThink.suggestionPrompt fc matched_chunks) = some raw →
      AutoThink.pyStrip raw ≠ "" →
      AutoThink.stripWrappingQuotes (AutoThink.pyStrip raw) ≠ "" →
      AutoThink.pyLower (AutoThink.stripWrappingQuotes (AutoThink.pyStrip raw)) ≠ "n/a" →
      (AutoThink.fast_generate_suggestion llm fc matched_chunks).1
        = AutoThink.stripWrappingQuotes (AutoThink.pyStrip raw)) := by
  obtain ⟨c, cs, rfl⟩ : ∃ c cs, matched_chunks = c :: cs := by
    cases matched_chunks with
    | nil => exact absurd rfl h
    | cons c cs => exact ⟨c, cs, rfl⟩
  unfold AutoThink.fast_generate_suggestion
  simp only [List.isEmpty_cons, Bool.false_eq_true, if_false]
  cases hl : llm (AutoThink.suggestionPrompt fc (c :: cs)) with
  | none =>
      refine ⟨by decide, fun _ => rfl, ?_, ?_, ?_⟩
      · intro raw hraw; cases hraw
      · intro raw hraw; cases hraw
      · intro raw hraw; cases hraw
  | some raw =>
      refine ⟨?_, ?_, ?_, ?_, ?_⟩
      · by_cases h1 : AutoThink.pyStrip raw = ""
        · simp only [h1, beq_self_eq_true, if_true]; decide
        · have h1b : (AutoThink.pyStrip raw == "") = false := by simpa using h1
          by_cases h2 : AutoThink.stripWrappingQuotes (AutoThink.pyStrip raw) = ""
          · simp only [h1b, Bool.false_eq_true, if_false, h2, beq_self_eq_true,
              Bool.true_or, if_true]
            decide
          · have h2b : (AutoThink.stripWrappingQuotes (AutoThink.pyStrip raw) == "") = false := by
              simpa using h2
            by_cases h3 : AutoThink.pyLower (AutoThink.stripWrappingQuotes (AutoThink.pyStrip raw)) = "n/a"
            · simp only [h1b, Bool.false_eq_true, if_false, h2b, h3, beq_self_eq_true,
                Bool.or_true, if_true]
              decide
            · have h3b : (AutoThink.pyLower (AutoThink.stripWrappingQuotes (AutoThink.pyStrip raw)) == "n/a") = false := by
                simpa using h3
              simp only [h1b, h2b, h3b, Bool.or_false, Bool.false_eq_true, if_false]
              simpa using h2
      · intro hraw; cases hraw
      · intro raw' hraw' h1
        cases hraw'
        simp only [h1, beq_self_eq_true, if_true]
      · intro raw' hraw' h1 hor
        cases hraw'
        have h1b : (AutoThink.pyStrip raw == "") = false := by simpa using h1
        rcases hor with h2 | h2
        · simp only [h1b, Bool.false_eq_true, if_false, h2, beq_self_eq_true,
            Bool.true_or, if_true]
        · simp only [h1b, Bool.false_eq_true, if_false, h2, beq_self_eq_true,
            Bool.or_true, if_true]
      · intro raw' hraw' h1 h2 h3
        cases hraw'
        have h1b : (AutoThink.pyStrip raw == "") = false := by simpa using h1
        have h2b : (AutoThink.stripWrappingQuotes (AutoThink.pyStrip raw) == "") = false := by
          simpa using h2
        have h3b : (AutoThink.pyLower (AutoThink.stripWrappingQuotes (AutoThink.pyStrip raw)) == "n/a") = false := by
          simpa using h3
        simp only [h1b, h2b, h3b, Bool.or_false, Bool.false_eq_true, if_false]

/-- Concrete inputs for the claim C1 witness: one matched chunk and a model
reply that strips to a quoted `n/a`. -/
def AutoThink.llmQuotedNA : String → Option String := fun _ => some " \"N/A\" "

/-- Claim C1 witness: the amended theorem applied at a concrete non-empty
matched-chunk list. -/
theorem AutoThink.fast_generate_suggestion_postprocess_witness :
    (AutoThink.fast_generate_suggestion AutoThink.llmQuotedNA {} [{}]).1 ≠ "" :=
  (AutoThink.fast_generate_suggestion_postprocess AutoThink.llmQuotedNA {} [{}]
    (by decide)).1

namespace AutoThink

/-! ## `cosine_similarity`

Vector components are rationals.  `np.linalg.norm` is the square root of
the sum of squares; the floating-point square root has no exact rational
counterpart, so it is an explicit function parameter `sqrtFn` (every claim
here depends only on the value the guard tests, not on what the square root
computes).  `np.dot` is the sum of componentwise products; on vectors of
unequal dimension NumPy raises a shape error, which is outside these
claims, and the embedding pairs components positionally. -/

def dotList (v1 v2 : List ℚ) : ℚ := (List.zipWith (· * ·) v1 v2).sum

/-- `np.linalg.norm(v)` with the square root abstracted. -/
def npNorm (sqrtFn : ℚ → ℚ) (v : List ℚ) : ℚ := sqrtFn (dotList v v)

/-- `cosine_similarity(vec1, vec2)`: the guard
`if norm1 and norm2 else 0.0` is Python float truthiness, i.e. both norms
nonzero. -/
def cosine_similarity (sqrtFn : ℚ → ℚ) (vec1 vec2 : List ℚ) : ℚ :=
  if npNorm sqrtFn vec1 ≠ 0 ∧ npNorm sqrtFn vec2 ≠ 0 then
    dotList vec1 vec2 / (npNorm sqrtFn vec1 * npNorm sqrtFn vec2)
  else 0

end AutoThink

/-- Claim C5: `cosine_similarity` is total (the embedding is a function, and
the division is guarded): whenever either norm is exactly zero the result is
exactly `0`, and otherwise it is the dot product divided by the product of
the two norms. -/
theorem AutoThink.cosine_similarity_spec (sqrtFn : ℚ → ℚ) (vec1 vec2 : List ℚ) :
    ((AutoThink.npNorm sqrtFn vec1 = 0 ∨ AutoThink.npNorm sqrtFn vec2 = 0) →
      AutoThink.cosine_similarity sqrtFn vec1 vec2 = 0) ∧
    (AutoThink.npNorm sqrtFn vec1 ≠ 0 → AutoThink.npNorm sqrtFn vec2 ≠ 0 →
      AutoThink.cosine_similarity sqrtFn vec1 vec2
        = AutoThink.dotList vec1 vec2
            / (AutoThink.npNorm sqrtFn vec1 * AutoThink.npNorm sqrtFn vec2)) := by
  constructor
  · intro h
    unfold AutoThink.cosine_similarity
    rw [if_neg]
    rcases h with h | h <;> simp [h]
  · intro h1 h2
    unfold AutoThink.cosine_similarity
    rw [if_pos ⟨h1, h2⟩]

/-- Claim C9: `generate_embeddings_batch` on an empty text list returns an
empty output with zero requests to the embedding service. -/
theorem AutoThink.generate_embeddings_batch_empty (svc : List String → List (List ℚ)) :
    AutoThink.generate_embeddings_batch svc [] = ([], 0) := rfl

namespace AutoThink

/-! ## `fast_match_chunks`

The for-loop with its `continue` is the recursion `simPairs`; Python
`list.sort(key=..., reverse=True)` is a *stable* descending sort, modelled
by the stable insertion sort `sortDesc` (any two stable sorts by the same
key agree, so this is the sort's contract, not an approximation); `[:top_k]`
is `List.take` (the claims concern the count `top_k`, a natural number).
The single-item embedding call for the field description goes through
`generate_embeddings_batch`; indexing `[0]` into an empty reply raises,
modelled as `Except.error`. -/

/-- `chunk.get('metadata', {}).get('embedding')`. -/
def chunkEmbedding (c : DChunk) : Option (List ℚ) := c.metadata.bind (·.embedding)

/-- The soft-skip test: a chunk is kept exactly when its stored embedding
value is truthy (present and a non-empty list). -/
def hasEmbedding (c : DChunk) : Bool :=
  match chunkEmbedding c with
  | some (_ :: _) => true
  | _ => false

/-- `" ".join([label or '', placeholder or '', name or '']).strip()`, with
the `"general information"` fallback. -/
def fieldDesc (fc : FieldContext) : String :=
  let d := pyStrip ((fc.label_text.getD "") ++ " " ++ (fc.placeholder.getD "")
    ++ " " ++ (fc.name_attr.getD ""))
  if d == "" then "general information" else d

/-- The similarity loop: skip falsy embeddings, else pair the chunk with
`cosine_similarity(field_embedding, chunk_embedding)`. -/
def simPairs (sqrtFn : ℚ → ℚ) (femb : List ℚ) : List DChunk → List (DChunk × ℚ)
  | [] => []
  | c :: rest =>
    match chunkEmbedding c with
    | some (x :: xs) =>
        (c, cosine_similarity sqrtFn femb (x :: xs)) :: simPairs sqrtFn femb rest
    | _ => simPairs sqrtFn femb rest

/-- Insert into a descending-sorted list, after every element with an equal
or larger key (the placement a stable descending sort gives the earlier
element). -/
def insertDesc {α : Type} (x : α × ℚ) : List (α × ℚ) → List (α × ℚ)
  | [] => [x]
  | y :: ys => if x.2 < y.2 then y :: insertDesc x ys else x :: y :: ys

/-- Stable descending sort by the second component (the similarity score). -/
def sortDesc {α : Type} : List (α × ℚ) → List (α × ℚ)
  | [] => []
  | x :: xs => insertDesc x (sortDesc xs)

/-- Non-increasing second components. -/
def geSnd {α : Type} (a b : α × ℚ) : Prop := b.2 ≤ a.2

inductive MatchError where
  | indexError
deriving DecidableEq

def fast_match_chunks (sqrtFn : ℚ → ℚ) (svc : List String → List (List ℚ))
    (field_context : FieldContext) (all_chunks : List DChunk) (top_k : Nat := 5) :
    Except MatchError (List DChunk) :=
  match (generate_embeddings_batch svc [fieldDesc field_context]).1 with
  | [] => .error .indexError
  | femb :: _ =>
    .ok (((sortDesc (simPairs sqrtFn femb all_chunks)).take top_k).map (·.1))

/-- The field embedding `field_embeddings[0]` as the non-raising path computes it. -/
def queryEmbedding (svc : List String → List (List ℚ)) (fc : FieldContext) : List ℚ :=
  ((generate_embeddings_batch svc [fieldDesc fc]).1).headD []

/-- The similarity score `fast_match_chunks` assigns to a kept chunk. -/
def simTo (sqrtFn : ℚ → ℚ) (femb : List ℚ) (c : DChunk) : ℚ :=
  cosine_similarity sqrtFn femb ((chunkEmbedding c).getD [])

lemma insertDesc_perm {α : Type} (x : α × ℚ) (l : List (α × ℚ)) :
    List.Perm (insertDesc x l) (x :: l) := by
  induction l with
  | nil => exact List.Perm.refl _
  | cons y ys ih =>
      unfold insertDesc
      by_cases hx : x.2 < y.2
      · rw [if_pos hx]
        exact (ih.cons y).trans (List.Perm.swap x y ys)
      · rw [if_neg hx]

lemma sortDesc_perm {α : Type} (l : List (α × ℚ)) : List.Perm (sortDesc l) l := by
  induction l with
  | nil => exact List.Perm.refl _
  | cons x xs ih => exact ((insertDesc_perm x (sortDesc xs)).trans (ih.cons x))

lemma insertDesc_pairwise {α : Type} (x : α × ℚ) (l : List (α × ℚ))
    (hl : l.Pairwise geSnd) : (insertDesc x l).Pairwise geSnd := by
  induction l with
  | nil => simp [insertDesc, geSnd]
  | cons y ys ih =>
      rw [List.pairwise_cons] at hl
      obtain ⟨hy, hys⟩ := hl
      unfold insertDesc
      by_cases hx : x.2 < y.2
      · rw [if_pos hx, List.pairwise_cons]
        refine ⟨fun z hz => ?_, ih hys⟩
        rcases List.mem_cons.mp ((insertDesc_perm x ys).mem_iff.mp hz) with rfl | hz
        · exact le_of_lt hx
        · exact hy z hz
      · rw [if_neg hx, List.pairwise_cons]
        refine ⟨fun z hz => ?_, List.pairwise_cons.mpr ⟨hy, hys⟩⟩
        rcases List.mem_cons.mp hz with rfl | hz
        · exact le_of_not_lt hx
        · exact le_trans (hy z hz) (le_of_not_lt hx)

lemma sortDesc_pairwise {α : Type} (l : List (α × ℚ)) : (sortDesc l).Pairwise geSnd := by
  induction l with
  | nil => exact List.Pairwise.nil
  | cons x xs ih => exact insertDesc_pairwise x (sortDesc xs) ih

lemma sublist_insertDesc {α : Type} (x : α × ℚ) (l : List (α × ℚ)) :
    List.Sublist l (insertDesc x l) := by
  induction l with
  | nil => exact List.nil_sublist _
  | cons y ys ih =>
      unfold insertDesc
      by_cases hx : x.2 < y.2
      · rw [if_pos hx]; exact ih.cons₂ y
      · rw [if_neg hx]; exact (List.Sublist.refl (y :: ys)).cons x

lemma insertDesc_pair_sublist {α : Type} (x b : α × ℚ) (l : List (α × ℚ))
    (hl : l.Pairwise geSnd) (hb : b ∈ l) (hle : b.2 ≤ x.2) :
    List.Sublist [x, b] (insertDesc x l) := by
  induction l with
  | nil => cases hb
  | cons y ys ih =>
      rw [List.pairwise_cons] at hl
      obtain ⟨hy, hys⟩ := hl
      unfold insertDesc
      by_cases hx : x.2 < y.2
      · rw [if_pos hx]
        rcases List.mem_cons.mp hb with rfl | hb
        · exact absurd (lt_of_le_of_lt hle hx) (lt_irrefl _)
        · exact (ih hys hb).cons y
      · rw [if_neg hx]
        exact (List.singleton_sublist.mpr hb).cons₂ x

lemma sortDesc_stable {α : Type} (a b : α × ℚ) (l : List (α × ℚ))
    (hab : a.2 = b.2) (h : List.Sublist [a, b] l) : List.Sublist [a, b] (sortDesc l) := by
  induction l with
  | nil => cases h
  | cons x xs ih =>
      cases h with
      | cons _ h' => exact (ih h').trans (sublist_insertDesc x (sortDesc xs))
      | cons₂ _ h' =>
          exact insertDesc_pair_sublist a b (sortDesc xs) (sortDesc_pairwise xs)
            ((sortDesc_perm xs).mem_iff.mpr (List.singleton_sublist.mp h'))
            (le_of_eq hab.symm)

/-- The similarity loop keeps exactly the chunks with a truthy embedding,
pairing each with its similarity to the field embedding, in input order. -/
lemma simPairs_eq (sqrtFn : ℚ → ℚ) (femb : List ℚ) (l : List DChunk) :
    simPairs sqrtFn femb l
      = (l.filter hasEmbedding).map (fun c => (c, simTo sqrtFn femb c)) := by
  induction l with
  | nil => rfl
  | cons c rest ih =>
      unfold simPairs
      rcases hc : chunkEmbedding c with _ | e
      · have hf : hasEmbedding c = false := by unfold hasEmbedding; rw [hc]
        simp [List.filter_cons, hf, ih]
      · cases e with
        | nil =>
            have hf : hasEmbedding c = false := by unfold hasEmbedding; rw [hc]
            simp [List.filter_cons, hf, ih]
        | cons x xs =>
            have ht : hasEmbedding c = true := by unfold hasEmbedding; rw [hc]
            simp [List.filter_cons, ht, ih, simTo, hc]

lemma fast_match_chunks_nil_case (sqrtFn : ℚ → ℚ) (svc : List String → List (List ℚ))
    (fc : FieldContext) (chunks : List DChunk) (k : Nat)
    (hsvc : (generate_embeddings_batch svc [fieldDesc fc]).1 = []) :
    fast_match_chunks sqrtFn svc fc chunks k = .error .indexError := by
  unfold fast_match_chunks; rw [hsvc]

lemma fast_match_chunks_cons_case (sqrtFn : ℚ → ℚ) (svc : List String → List (List ℚ))
    (fc : FieldContext) (chunks : List DChunk) (k : Nat) (femb : List ℚ) (rest : List (List ℚ))
    (hsvc : (generate_embeddings_batch svc [fieldDesc fc]).1 = femb :: rest) :
    fast_match_chunks sqrtFn svc fc chunks k
      = .ok (((sortDesc (simPairs sqrtFn femb chunks)).take k).map (·.1)) := by
  unfold fast_match_chunks; rw [hsvc]

/-- Every chunk the match loop ranked has a truthy embedding. -/
lemma fast_match_chunks_mem_hasEmbedding (sqrtFn : ℚ → ℚ)
    (svc : List String → List (List ℚ)) (fc : FieldContext) (chunks : List DChunk)
    (k : Nat) (out : List DChunk)
    (h : fast_match_chunks sqrtFn svc fc chunks k = .ok out) :
    ∀ c ∈ out, hasEmbedding c = true := by
  rcases hsvc : (generate_embeddings_batch svc [fieldDesc fc]).1 with _ | ⟨femb, rest⟩
  · rw [fast_match_chunks_nil_case sqrtFn svc fc chunks k hsvc] at h; cases h
  · rw [fast_match_chunks_cons_case sqrtFn svc fc chunks k femb rest hsvc] at h
    injection h with h
    subst h
    intro c hc
    obtain ⟨p, hp, rfl⟩ := List.mem_map.mp hc
    have hp' : p ∈ simPairs sqrtFn femb chunks :=
      (sortDesc_perm _).mem_iff.mp ((List.take_sublist k _).subset hp)
    rw [simPairs_eq] at hp'
    obtain ⟨c', hc', hpc⟩ := List.mem_map.mp hp'
    obtain rfl : c' = p.1 := by rw [← hpc]
    exact (List.mem_filter.mp hc').2

end AutoThink

/-- Claim C4: on the non-raising path, `fast_match_chunks` returns at most
`top_k` chunks, ordered by non-increasing cosine similarity to the query
embedding, containing no chunk with a falsy stored embedding; the output is
a prefix of a full ranking `S` that permutes the kept chunks, is sorted
non-increasingly, and preserves the input order of equal-similarity chunks
(every tied two-element sublist of the kept input is a sublist of `S`). -/
theorem AutoThink.fast_match_chunks_spec (sqrtFn : ℚ → ℚ)
    (svc : List String → List (List ℚ)) (fc : AutoThink.FieldContext)
    (chunks : List AutoThink.DChunk) (k : Nat) (out : List AutoThink.DChunk)
    (h : AutoThink.fast_match_chunks sqrtFn svc fc chunks k = .ok out) :
    out.length ≤ k ∧
    (∀ c ∈ out, AutoThink.hasEmbedding c = true) ∧
    out.Pairwise (fun c1 c2 =>
      AutoThink.simTo sqrtFn (AutoThink.queryEmbedding svc fc) c2
        ≤ AutoThink.simTo sqrtFn (AutoThink.queryEmbedding svc fc) c1) ∧
    ∃ S : List AutoThink.DChunk,
      out = S.take k ∧
      List.Perm S (chunks.filter AutoThink.hasEmbedding) ∧
      S.Pairwise (fun c1 c2 =>
        AutoThink.simTo sqrtFn (AutoThink.queryEmbedding svc fc) c2
          ≤ AutoThink.simTo sqrtFn (AutoThink.queryEmbedding svc fc) c1) ∧
      (∀ c1 c2,
        AutoThink.simTo sqrtFn (AutoThink.queryEmbedding svc fc) c1
          = AutoThink.simTo sqrtFn (AutoThink.queryEmbedding svc fc) c2 →
        List.Sublist [c1, c2] (chunks.filter AutoThink.hasEmbedding) →
        List.Sublist [c1, c2] S) := by
  have hmem := AutoThink.fast_match_chunks_mem_hasEmbedding sqrtFn svc fc chunks k out h
  rcases hsvc : (AutoThink.generate_embeddings_batch svc [AutoThink.fieldDesc fc]).1
    with _ | ⟨femb, rest⟩
  · rw [AutoThink.fast_match_chunks_nil_case sqrtFn svc fc chunks k hsvc] at h; cases h
  · rw [AutoThink.fast_match_chunks_cons_case sqrtFn svc fc chunks k femb rest hsvc] at h
    have hq : AutoThink.queryEmbedding svc fc = femb := by
      unfold AutoThink.queryEmbedding; rw [hsvc]; rfl
    injection h with h
    subst h
    simp only [hq]
    have htkmem : ∀ p ∈ (AutoThink.sortDesc (AutoThink.simPairs sqrtFn femb chunks)).take k,
        p ∈ AutoThink.simPairs sqrtFn femb chunks := fun p hp =>
      (AutoThink.sortDesc_perm _).mem_iff.mp ((List.take_sublist k _).subset hp)
    have hsmem : ∀ p ∈ AutoThink.sortDesc (AutoThink.simPairs sqrtFn femb chunks),
        p ∈ AutoThink.simPairs sqrtFn femb chunks := fun p hp =>
      (AutoThink.sortDesc_perm _).mem_iff.mp hp
    have hsnd : ∀ p ∈ AutoThink.simPairs sqrtFn femb chunks,
        p.2 = AutoThink.simTo sqrtFn femb p.1 := by
      intro p hp
      rw [AutoThink.simPairs_eq] at hp
      obtain ⟨c, _, hpc⟩ := List.mem_map.mp hp
      rw [← hpc]
    refine ⟨?_, hmem, ?_, ?_⟩
    · rw [List.length_map, List.length_take]
      exact min_le_left _ _
    · rw [List.pairwise_map]
      refine List.Pairwise.imp_of_mem ?_
        ((AutoThink.sortDesc_pairwise _).sublist (List.take_sublist k _))
      intro p q hp hq' hge
      rw [← hsnd p (htkmem p hp), ← hsnd q (htkmem q hq')]
      exact hge
    · refine ⟨(AutoThink.sortDesc (AutoThink.simPairs sqrtFn femb chunks)).map (·.1),
        List.map_take _ _ _, ?_, ?_, ?_⟩
      · have h2 : ∀ l : List AutoThink.DChunk,
            (l.map (fun c => (c, AutoThink.simTo sqrtFn femb c))).map (fun p => p.1) = l := by
          intro l
          induction l with
          | nil => rfl
          | cons a t ih => simp only [List.map_cons, ih]
        have h1 := (AutoThink.sortDesc_perm (AutoThink.simPairs sqrtFn femb chunks)).map
          (fun p => p.1)
        nth_rewrite 2 [AutoThink.simPairs_eq] at h1
        rw [h2] at h1
        exact h1
      · rw [List.pairwise_map]
        refine List.Pairwise.imp_of_mem ?_ (AutoThink.sortDesc_pairwise _)
        intro p q hp hq' hge
        rw [← hsnd p (hsmem p hp), ← hsnd q (hsmem q hq')]
        exact hge
      · intro c1 c2 h12 hsub
        have hsub' : List.Sublist
            [(c1, AutoThink.simTo sqrtFn femb c1), (c2, AutoThink.simTo sqrtFn femb c2)]
            (AutoThink.simPairs sqrtFn femb chunks) := by
          rw [AutoThink.simPairs_eq]
          exact hsub.map (fun c => (c, AutoThink.simTo sqrtFn femb c))
        have := (AutoThink.sortDesc_stable _ _ _ h12 hsub').map (·.1)
        simpa using this

/-- Concrete inputs for the matching witnesses: a constant-zero square root
(rational multiplication and division are opaque to kernel reduction, and
the claims do not depend on the score values), a one-vector embedding
service, two embedded chunks and one chunk with no embedding. -/
def AutoThink.sqrtZero : ℚ → ℚ := fun _ => 0

def AutoThink.svcOne : List String → List (List ℚ) := fun _ => [[1]]

def AutoThink.chunkA : AutoThink.DChunk :=
  { id := "a", metadata := some { embedding := some [1] } }

def AutoThink.chunkB : AutoThink.DChunk :=
  { id := "b", metadata := some { embedding := some [2] } }

def AutoThink.chunkNoEmb : AutoThink.DChunk := { id := "c" }

def AutoThink.demoChunks : List AutoThink.DChunk :=
  [AutoThink.chunkA, AutoThink.chunkNoEmb, AutoThink.chunkB]

def AutoThink.demoOut : List AutoThink.DChunk := [AutoThink.chunkA, AutoThink.chunkB]

/-- Claim C4 witness: the matching theorem applied at a concrete run. -/
theorem AutoThink.fast_match_chunks_spec_witness : AutoThink.demoOut.length ≤ 5 :=
  (AutoThink.fast_match_chunks_spec AutoThink.sqrtZero AutoThink.svcOne {}
    AutoThink.demoChunks 5 AutoThink.demoOut rfl).1

/-- Claim C10: every chunk in the list `fast_match_chunks` returns carries a
present metadata mapping with a non-empty embedding sequence under its
`embedding` key (chunks with absent metadata, an absent key, a `None` value
or an empty list are soft-skipped). -/
theorem AutoThink.fast_match_chunks_kept_embedding (sqrtFn : ℚ → ℚ)
    (svc : List String → List (List ℚ)) (fc : AutoThink.FieldContext)
    (chunks : List AutoThink.DChunk) (k : Nat) (out : List AutoThink.DChunk)
    (c : AutoThink.DChunk)
    (h : AutoThink.fast_match_chunks sqrtFn svc fc chunks k = .ok out)
    (hc : c ∈ out) :
    ∃ m l, c.metadata = some m ∧ m.embedding = some l ∧ l ≠ [] := by
  have hemb := AutoThink.fast_match_chunks_mem_hasEmbedding sqrtFn svc fc chunks k out h c hc
  unfold AutoThink.hasEmbedding at hemb
  rcases hce : AutoThink.chunkEmbedding c with _ | e
  · rw [hce] at hemb; cases hemb
  · cases e with
    | nil => rw [hce] at hemb; cases hemb
    | cons x xs =>
        unfold AutoThink.chunkEmbedding at hce
        rcases hm : c.metadata with _ | m
        · rw [hm] at hce; cases hce
        · rw [hm] at hce
          exact ⟨m, x :: xs, rfl, hce, by simp⟩

/-- Claim C10 witness: the theorem applied to the first chunk of a concrete run. -/
theorem AutoThink.fast_match_chunks_kept_embedding_witness :
    ∃ m l, AutoThink.chunkA.metadata = some m ∧ m.embedding = some l ∧ l ≠ [] :=
  AutoThink.fast_match_chunks_kept_embedding AutoThink.sqrtZero AutoThink.svcOne {}
    AutoThink.demoChunks 5 AutoThink.demoOut AutoThink.chunkA rfl (by decide)

namespace AutoThink

/-! ## `analyze_document_fast`

The chat-completion reply is the parameter `content` (the function's
behaviour from the reply onward is what the claims concern); `json.loads`
is a parameter from the fence-stripped string to an optional parsed
structure (`none` models a `JSONDecodeError`); each parsed chunk or topic
record carries `Option` fields, `none` modelling an absent key so the
Python `.get(key, default)` calls become `Option.getD`.  Indexing
`embeddings[i]` past the end of the embedding batch raises, modelled as
`Except.error .indexError`; Python's `set` of tags followed by `sorted` is
deduplication followed by an ascending sort. -/

structure PChunk where
  body : Option String := none
  semantic_tags : Option (List String) := none
  related_topics : Option (List String) := none
  metadata : Option (List (String × String)) := none
deriving DecidableEq

structure PTopic where
  topic : Option String := none
  subtopics : Option (List String) := none
  confidence : Option ℚ := none
deriving DecidableEq

structure PData where
  discovered_topics : Option (List PTopic) := none
  chunks : Option (List PChunk) := none
deriving DecidableEq

inductive AnalyzeError where
  | jsonError
  | indexError
deriving DecidableEq

/-- Lines 89-98: strip, remove an optional leading ```json or ``` fence and
an optional trailing ``` fence, strip again. -/
def stripFences (content : String) : String :=
  let c0 := pyStrip content
  let c1 := if pyStartsWith "```json" c0 then pyDrop 7 c0 else c0
  let c2 := if pyStartsWith "```" c1 then pyDrop 3 c1 else c1
  let c3 := if pyEndsWith "```" c2 then pyDropRight 3 c2 else c2
  pyStrip c3

/-- Ascending insertion into a sorted list of strings. -/
def insertStr (x : String) : List String → List String
  | [] => [x]
  | y :: ys => if x < y then x :: y :: ys else y :: insertStr x ys

/-- Python `sorted(...)` on strings. -/
def sortStrings : List String → List String
  | [] => []
  | x :: xs => insertStr x (sortStrings xs)

/-- One `SemanticChunk` built from a parsed chunk record (lines 109-131):
every field defaults when the key is missing, and the id uses the synthetic
section key `"chunk_<index>"`. -/
def chunkFromData (source_file_name : String) (i : Nat) (cd : PChunk) : SemanticChunk :=
  { id := generate_stable_chunk_id source_file_name ("chunk_" ++ toString i) (cd.body.getD "")
    source_file := source_file_name
    body := cd.body.getD ""
    semantic_tags := cd.semantic_tags.getD []
    related_topics := cd.related_topics.getD []
    metadata := { embedding := none, extra := cd.metadata.getD [] } }

/-- The embedding text of a chunk: body, a space, the tags joined by spaces. -/
def embeddingText (cd : PChunk) : String :=
  cd.body.getD "" ++ " " ++ String.intercalate " " (cd.semantic_tags.getD [])

/-- `chunk.metadata['embedding'] = embeddings[i].tolist()`. -/
def attachEmbedding (c : SemanticChunk) (e : List ℚ) : SemanticChunk :=
  { c with metadata := { c.metadata with embedding := some e } }

/-- The chunk list before embeddings are attached. -/
def builtChunks (file : String) (cds : List PChunk) : List SemanticChunk :=
  cds.enum.map (fun p => chunkFromData file p.1 p.2)

/-- The chunk list with embeddings attached positionally. -/
def attachedChunks (svc : List String → List (List ℚ)) (file : String) (data : PData) :
    List SemanticChunk :=
  List.zipWith attachEmbedding (builtChunks file (data.chunks.getD []))
    ((generate_embeddings_batch svc ((data.chunks.getD []).map embeddingText)).1)

/-- One topic built from a parsed topic record (lines 145-158): its
`chunk_ids` are the ids, in chunk order, of the chunks whose
`related_topics` contain the topic name as an exact string. -/
def topicFromData (chunks : List SemanticChunk) (td : PTopic) : DiscoveredTopic :=
  { topic := td.topic.getD ""
    subtopics := td.subtopics.getD []
    chunk_ids := (chunks.filter
      (fun c => c.related_topics.contains (td.topic.getD ""))).map (·.id)
    confidence := td.confidence.getD (4 / 5) }

/-- The successfully-parsed branch of `analyze_document_fast`. -/
def analyzeOk (svc : List String → List (List ℚ)) (file : String) (data : PData) :
    Except AnalyzeError DocumentIndex :=
  if (generate_embeddings_batch svc ((data.chunks.getD []).map embeddingText)).1.length
      < (builtChunks file (data.chunks.getD [])).length then
    .error .indexError
  else
    .ok { document_id := generate_stable_chunk_id file "" ""
          source_file := file
          discovered_topics := (data.discovered_topics.getD []).map
            (topicFromData (attachedChunks svc file data))
          all_tags := sortStrings (((data.chunks.getD []).flatMap
            (fun cd => cd.semantic_tags.getD [])).eraseDups)
          chunk_count := (attachedChunks svc file data).length
          chunks := attachedChunks svc file data }

def analyze_document_fast (json_loads : String → Option PData)
    (svc : List String → List (List ℚ)) (content : String) (source_file_name : String) :
    Except AnalyzeError DocumentIndex :=
  match json_loads (stripFences content) with
  | none => .error .jsonError
  | some data => analyzeOk svc source_file_name data

lemma analyze_none_case (json_loads : String → Option PData)
    (svc : List String → List (List ℚ)) (content file : String)
    (hjl : json_loads (stripFences content) = none) :
    analyze_document_fast json_loads svc content file = .error .jsonError := by
  unfold analyze_document_fast; rw [hjl]

lemma analyze_some_case (json_loads : String → Option PData)
    (svc : List String → List (List ℚ)) (content file : String) (data : PData)
    (hjl : json_loads (stripFences content) = some data) :
    analyze_document_fast json_loads svc content file = analyzeOk svc file data := by
  unfold analyze_document_fast; rw [hjl]

lemma map_body_zipWith (raw : List SemanticChunk) (embs : List (List ℚ))
    (h : raw.length ≤ embs.length) :
    (List.zipWith attachEmbedding raw embs).map (fun c => c.body)
      = raw.map (fun c => c.body) := by
  induction raw generalizing embs with
  | nil => simp
  | cons c t ih =>
      cases embs with
      | nil => simp at h
      | cons e es =>
          simp only [List.zipWith_cons_cons, List.map_cons]
          rw [ih es (by simpa using h)]
          rfl

lemma map_body_enumFrom (file : String) (cds : List PChunk) :
    ∀ n, ((List.enumFrom n cds).map (fun p => chunkFromData file p.1 p.2)).map
        (fun c => c.body)
      = cds.map (fun cd => cd.body.getD "") := by
  induction cds with
  | nil => intro n; rfl
  | cons cd t ih =>
      intro n
      simp only [List.enumFrom, List.map_cons]
      rw [ih (n + 1)]
      rfl

lemma map_body_built (file : String) (cds : List PChunk) :
    (builtChunks file cds).map (fun c => c.body)
      = cds.map (fun cd => cd.body.getD "") :=
  map_body_enumFrom file cds 0

end AutoThink

/-- Claim C2 as amended: `analyze_document_fast` fails (the JSON decode
error propagates) whenever the reply is not valid JSON after stripping
optional code fences; but a chunk record missing a required field does
*not* fail — the field is silently defaulted (missing `body` becomes the
empty string) and the chunk is synthesized into the returned
`DocumentIndex`.  No `MalformedModelOutputError` class exists in the code;
the parse error is the JSON library's. -/
theorem AutoThink.analyze_document_fast_parse (json_loads : String → Option AutoThink.PData)
    (svc : List String → List (List ℚ)) (content file : String) :
    (json_loads (AutoThink.stripFences content) = none →
      AutoThink.analyze_document_fast json_loads svc content file
        = .error .jsonError) ∧
    (∀ data idx, json_loads (AutoThink.stripFences content) = some data →
      AutoThink.analyze_document_fast json_loads svc content file = .ok idx →
      idx.chunks.map (fun c => c.body)
        = (data.chunks.getD []).map (fun cd => cd.body.getD "")) := by
  constructor
  · exact AutoThink.analyze_none_case json_loads svc content file
  · intro data idx hjl h
    rw [AutoThink.analyze_some_case json_loads svc content file data hjl] at h
    unfold AutoThink.analyzeOk at h
    by_cases hlen : (AutoThink.generate_embeddings_batch svc
          ((data.chunks.getD []).map AutoThink.embeddingText)).1.length
        < (AutoThink.builtChunks file (data.chunks.getD [])).length
    · rw [if_pos hlen] at h; cases h
    · rw [if_neg hlen] at h
      injection h with h
      subst h
      show (AutoThink.attachedChunks svc file data).map (fun c => c.body) = _
      unfold AutoThink.attachedChunks
      rw [AutoThink.map_body_zipWith _ _ (le_of_not_lt hlen)]
      exact AutoThink.map_body_built file (data.chunks.getD [])

/-- Parsed model output whose single chunk record is missing the required
`body` field. -/
def AutoThink.jlMissingBody : String → Option AutoThink.PData :=
  fun _ => some { chunks := some [{ semantic_tags := some ["t"] }] }

def AutoThink.missingBodyIdx : AutoThink.DocumentIndex :=
  (AutoThink.analyze_document_fast AutoThink.jlMissingBody AutoThink.svcOne
    "x" "f.txt").toOption.getD { document_id := "", source_file := "", chunk_count := 0 }

/-- Claim C2, counterexample: a chunk record missing its required `body`
field does not make the call fail — the call succeeds and a fallback chunk
with the defaulted empty body is synthesized into the returned index. -/
theorem AutoThink.analyze_document_fast_missing_field_ok :
    AutoThink.analyze_document_fast AutoThink.jlMissingBody AutoThink.svcOne "x" "f.txt"
        = .ok AutoThink.missingBodyIdx ∧
    AutoThink.missingBodyIdx.chunks.map (fun c => c.body) = [""] :=
  ⟨rfl, by decide⟩

/-- Claim C7: in the returned `DocumentIndex`, every discovered topic's
`chunk_ids` list is exactly the ids, in chunk order, of the chunks whose
`related_topics` contain the topic's name as an exact string match (a topic
matching no chunk gets the empty list, not an error). -/
theorem AutoThink.analyze_document_fast_topic_links (json_loads : String → Option AutoThink.PData)
    (svc : List String → List (List ℚ)) (content file : String)
    (idx : AutoThink.DocumentIndex) (t : AutoThink.DiscoveredTopic)
    (h : AutoThink.analyze_document_fast json_loads svc content file = .ok idx)
    (ht : t ∈ idx.discovered_topics) :
    t.chunk_ids
      = (idx.chunks.filter (fun c => c.related_topics.contains t.topic)).map
          (fun c => c.id) := by
  rcases hjl : json_loads (AutoThink.stripFences content) with _ | data
  · rw [AutoThink.analyze_none_case json_loads svc content file hjl] at h; cases h
  · rw [AutoThink.analyze_some_case json_loads svc content file data hjl] at h
    unfold AutoThink.analyzeOk at h
    by_cases hlen : (AutoThink.generate_embeddings_batch svc
          ((data.chunks.getD []).map AutoThink.embeddingText)).1.length
        < (AutoThink.builtChunks file (data.chunks.getD [])).length
    · rw [if_pos hlen] at h; cases h
    · rw [if_neg hlen] at h
      injection h with h
      subst h
      obtain ⟨td, _, rfl⟩ := List.mem_map.mp ht
      rfl

/-- Parsed model output for the claim C7 witness: one topic and one chunk
related to it. -/
def AutoThink.jlDemo : String → Option AutoThink.PData := fun _ => some
  { discovered_topics := some
      [{ topic := some "T", subtopics := some ["s"], confidence := some 1 }]
    chunks := some
      [{ body := some "hello", semantic_tags := some ["greeting"],
         related_topics := some ["T"] }] }

def AutoThink.demoIdx : AutoThink.DocumentIndex :=
  (AutoThink.analyze_document_fast AutoThink.jlDemo AutoThink.svcOne
    "x" "doc.txt").toOption.getD { document_id := "", source_file := "", chunk_count := 0 }

def AutoThink.demoTopic : AutoThink.DiscoveredTopic :=
  AutoThink.demoIdx.discovered_topics.headD { topic := "", confidence := 0 }

/-- Claim C7 witness: the linkage theorem applied at a concrete run. -/
theorem AutoThink.analyze_document_fast_topic_links_witness :
    AutoThink.demoTopic.chunk_ids
      = (AutoThink.demoIdx.chunks.filter
          (fun c => c.related_topics.contains AutoThink.demoTopic.topic)).map
          (fun c => c.id) :=
  AutoThink.analyze_document_fast_topic_links AutoThink.jlDemo AutoThink.svcOne
    "x" "doc.txt" AutoThink.demoIdx AutoThink.demoTopic rfl (by decide)



